import Mathlib

/-!
Verification of the fawkes crash-observability agents.

This file gives a shallow embedding of the two agents of the repository,
`src/agents/FawkesCrashAgent-Windows.cpp` (Variant A, in-process trap) and
`src/agents/LinuxCrashAgent.cpp` (Variant B, external-artifact poller), and
proves properties of the embedded definitions.

Machine integers are modelled as `Nat`/`Int` with explicit reductions modulo
`2 ^ w` at the conversion points where the C++ code performs a narrowing or
signed-to-unsigned conversion.  Filesystem and socket effects are modelled by
passing their observable inputs (directory listings, success flags,
timestamps) as explicit arguments.
-/

namespace Fawkes

/-- The `CrashInfo` struct shared in shape by both agents
(`LinuxCrashAgent.cpp` lines 40–46, `FawkesCrashAgent-Windows.cpp`
lines 43–49): `haveCrash`, `exePath`, `pid`, `exceptionCode`, `crashFile`.
`pid` and `exceptionCode` are machine unsigned integers modelled as `Nat`. -/
structure CrashInfo where
  haveCrash : Bool
  exePath : String
  pid : Nat
  exceptionCode : Nat
  crashFile : String
deriving Repr, DecidableEq

/-- Zero-initialised static `g_lastCrash`: all fields value-initialised
(`static CrashInfo g_lastCrash;`). -/
def initCrashInfo : CrashInfo :=
  { haveCrash := false, exePath := "", pid := 0, exceptionCode := 0, crashFile := "" }

/-- The shared mutable state of one agent process: the atomic flag
`g_crashHappened` and the record `g_lastCrash` (both agents declare exactly
these two globals, plus the mutex that serialises access to the record). -/
structure StoreState where
  crashHappened : Bool
  lastCrash : CrashInfo
deriving Repr, DecidableEq

/-- Initial store: `static std::atomic<bool> g_crashHappened(false);` and the
zero-initialised `g_lastCrash`. -/
def initStore : StoreState :=
  { crashHappened := false, lastCrash := initCrashInfo }

/-! ## Linux agent (Variant B) -/

/-- The constant `static const char* CRASH_DIR = "/mnt/virtfs/fawkes/crashes";` -/
def CRASH_DIR : String := "/mnt/virtfs/fawkes/crashes"

/-- The constant `static const char* CORE_PATTERN_VALUE = "/mnt/virtfs/fawkes/crashes/core.%p";` -/
def CORE_PATTERN_VALUE : String := "/mnt/virtfs/fawkes/crashes/core.%p"

/-- One entry of a directory listing as observed by
`fs::directory_iterator`: the filename, whether `entry.is_regular_file()`
holds, and the `fs::last_write_time` value. -/
structure DirEntry where
  name : String
  regular : Bool
  mtime : Int
deriving Repr, DecidableEq

/-- The sentinel `fs::file_time_type::min()`: the poller initialises its running-maximum
timestamp with this sentinel.  `file_time_type` uses a signed 64-bit
representation, so its minimum is `-(2 ^ 63)`. -/
def fileTimeMin : Int := -(2 ^ 63)

/-- The filename filter of the poller: `fname.rfind("core.", 0) == 0`, i.e.
the name begins with `"core."`. -/
def startsWithCore (fname : String) : Bool :=
  "core.".data.isPrefixOf fname.data

/-- The two filter conditions of the scan loop (`LinuxCrashAgent.cpp`
lines 124–126): the entry is a regular file and its name begins with
`"core."`. -/
def goodEntry (e : DirEntry) : Bool :=
  e.regular && startsWithCore e.name

/-- One step of the poller's newest-file scan (`LinuxCrashAgent.cpp`
lines 123–133): skip non-regular entries and names not beginning with
`"core."`; replace the running candidate exactly when the entry's
modification time is strictly greater than the running maximum, which starts
at `fs::file_time_type::min()`. -/
def selectStep (acc : Option DirEntry × Int) (e : DirEntry) : Option DirEntry × Int :=
  if goodEntry e && decide (acc.2 < e.mtime) then
    (some e, e.mtime)
  else acc

/-- The candidate chosen by one poll cycle's directory scan: the fold of
`selectStep` over the listing in iteration order, starting from no candidate
and `fs::file_time_type::min()`.  `none` models `newestPath.empty()`. -/
def codeSelect (entries : List DirEntry) : Option DirEntry :=
  (entries.foldl selectStep (none, fileTimeMin)).1

/-- Whitespace as classified by `isspace` in the `"C"` locale, which is what
`std::stoi` (via `strtol`) skips before the number. -/
def isCSpace (c : Char) : Bool :=
  c = ' ' || c = '\t' || c = '\n' || c = '\x0b' || c = '\x0c' || c = '\r'

/-- Value of a list of decimal digit characters. -/
def digitsVal (ds : List Char) : Nat :=
  ds.foldl (fun a c => a * 10 + (c.toNat - 48)) 0

/-- Model of `std::stoi` on a string: skip `isspace` characters, accept one optional
sign, then require at least one decimal digit (otherwise
`std::invalid_argument`, modelled as `none`); the converted value must fit in
`int` (otherwise `std::out_of_range`, modelled as `none`).  Trailing
non-digit characters are ignored, as `stoi` stops at the first non-digit. -/
def cppStoi (s : String) : Option Int :=
  let cs := s.data.dropWhile isCSpace
  let sign : Int := match cs with
    | '-' :: _ => -1
    | _ => 1
  let cs2 : List Char := match cs with
    | '-' :: r => r
    | '+' :: r => r
    | _ => cs
  let ds := cs2.takeWhile Char.isDigit
  if ds.isEmpty then none
  else
    let v : Int := sign * (digitsVal ds : Int)
    if v < -(2 ^ 31) || (2 ^ 31 - 1 : Int) < v then none else some v

/-- The function `parsePID` (`LinuxCrashAgent.cpp` lines 161–173): if the filename begins
with `"core."`, run `std::stoi` on the suffix, returning `-1` when `stoi`
throws; otherwise return `-1`. -/
def parsePID (filename : String) : Int :=
  if startsWithCore filename then
    match cppStoi (filename.drop 5) with
    | some v => v
    | none => -1
  else -1

/-- The implicit conversion `unsigned long pidVal = parsePID(...)` at
`LinuxCrashAgent.cpp` line 140: `int` to 64-bit `unsigned long` reduces the
value modulo `2 ^ 64`. -/
def toULong (i : Int) : Nat :=
  (i % (2 ^ 64)).toNat

/-- Session-local state of the watcher thread plus the shared store: the
local `std::string lastCore` and the globals it writes. -/
structure PollState where
  lastCore : String
  store : StoreState
deriving Repr, DecidableEq

/-- Poller state at thread start: `std::string lastCore;` is empty and the
globals are in their initial state. -/
def initPollState : PollState :=
  { lastCore := "", store := initStore }

/-- Full path of a selected entry: `entry.path()` is the directory joined
with the filename, rendered by `path::string()` with the `/` separator. -/
def fullPath (e : DirEntry) : String :=
  CRASH_DIR ++ "/" ++ e.name

/-- One iteration of `CrashWatcherLoop` (`LinuxCrashAgent.cpp`
lines 111–157) after the sleep: if the directory is missing or not a
directory, do nothing (`continue`); otherwise scan for the newest `core.*`
regular file; if one was found and its full path differs from the
session-local `lastCore`, record it as `lastCore` and install the crash
record (flag true, exe `"unknown"`, pid parsed from the filename,
exception code `0xC0000005`, file the full path) under the mutex. -/
def pollCycle (dirOk : Bool) (entries : List DirEntry) (s : PollState) : PollState :=
  if !dirOk then s
  else
    match codeSelect entries with
    | none => s
    | some e =>
        let newestFull := fullPath e
        if newestFull ≠ s.lastCore then
          { lastCore := newestFull,
            store :=
              { crashHappened := true,
                lastCrash :=
                  { haveCrash := true
                    exePath := "unknown"
                    pid := toULong (parsePID e.name)
                    exceptionCode := 0xC0000005
                    crashFile := newestFull } } }
        else s

/-- The crash-branch response string built by the Linux agent's
`StartTCPServer` (`LinuxCrashAgent.cpp` lines 225–228).  The source text for
the exception field is
`"\"exception\": \"0x" + std::to_string(std::hex) + std::to_string(g_lastCrash.exceptionCode) + std::dec + ...`;
the subexpressions `std::to_string(std::hex)` and `... + std::dec` are
ill-formed C++ (no viable overload converts the `std::ios_base&(&)(std::ios_base&)`
manipulator), so the file does not compile as written; this model keeps the
remaining well-formed parts, in particular that
`std::to_string(g_lastCrash.exceptionCode)` formats the code in decimal, not
hexadecimal. -/
def linuxCrashResponse (c : CrashInfo) : String :=
  "\x7b \"crash\": true, \"pid\": " ++ Nat.repr c.pid ++
    ", \"exe\": \"" ++ c.exePath ++ "\", \"exception\": \"0x" ++
    Nat.repr c.exceptionCode ++
    "\", \"file\": \"" ++ c.crashFile ++ "\" \x7d\n"

/-- Response construction in the Linux agent's query loop
(`LinuxCrashAgent.cpp` lines 218–231): read `g_crashHappened` (outside the
lock), then under the lock emit the crash response if both the flag and
`g_lastCrash.haveCrash` hold, else `{ "crash": false }`. -/
def renderLinux (s : StoreState) : String :=
  if s.crashHappened && s.lastCrash.haveCrash then
    linuxCrashResponse s.lastCrash
  else "\x7b \"crash\": false \x7d\n"

/-! ## Windows agent (Variant A) -/

/-- The constant `static const char* CRASH_SUBDIR = "Z:\\qemu";` -/
def CRASH_SUBDIR : String := "Z:\\qemu"

/-- Lowercase hexadecimal rendering of an unsigned value, as produced by
`stringstream << std::hex << value`: lowercase digits, no leading zeros
beyond the value (`0` renders as `"0"`). -/
def hexStr (n : Nat) : String :=
  (Nat.toDigits 16 n).asString

/-- The function `CreateCrashJSON` (`FawkesCrashAgent-Windows.cpp` lines 158–185): build
the filename `crash_<pid>_<timestamp>.json`, join it to `CRASH_SUBDIR` with
the platform's preferred `\` separator, and return that full path — unless
opening the output file fails, in which case return the empty string.
`ts` is the `strftime("%Y%m%d_%H%M%S")` timestamp and `createOk` whether the
`std::ofstream` opened; the bytes written into the file are not observed by
any other part of the program and are not modelled. -/
def createCrashJSON (pid : Nat) (ts : String) (createOk : Bool) : String :=
  let fname := "crash_" ++ Nat.repr pid ++ "_" ++ ts ++ ".json"
  if createOk then CRASH_SUBDIR ++ "\\" ++ fname else ""

/-- The filter `MyUnhandledExceptionFilter` (`FawkesCrashAgent-Windows.cpp`
lines 122–152) as a store transformer: capture the exception code, the pid
and the module path (falling back to `"unknown"` when `GetModuleFileNameA`
returns 0, modelled by `exeOk`), write the crash JSON artifact, then under
the mutex set `g_crashHappened` and all five `g_lastCrash` fields.  The
trailing chain to the original filter does not touch the store. -/
def winFilter (code pid : Nat) (exeOk : Bool) (modulePath : String)
    (createOk : Bool) (ts : String) (_s : StoreState) : StoreState :=
  let exe := if exeOk then modulePath else "unknown"
  let jsonFile := createCrashJSON pid ts createOk
  { crashHappened := true,
    lastCrash :=
      { haveCrash := true
        exePath := exe
        pid := pid
        exceptionCode := code
        crashFile := jsonFile } }

/-- The crash-branch response string built by the Windows agent's
`StartTCPServer` (`FawkesCrashAgent-Windows.cpp` lines 292–300): the
exception code is rendered through `stringstream << "0x" << std::hex`. -/
def windowsCrashResponse (c : CrashInfo) : String :=
  "\x7b \"crash\": true, \"pid\": " ++ Nat.repr c.pid ++
    ", \"exe\": \"" ++ c.exePath ++ "\", \"exception\": \"0x" ++
    hexStr c.exceptionCode ++
    "\", \"file\": \"" ++ c.crashFile ++ "\" \x7d\n"

/-- Response construction in the Windows agent's query loop
(`FawkesCrashAgent-Windows.cpp` lines 286–306): read `g_crashHappened`
(outside the lock), then under the lock emit the crash response if both the
flag and `g_lastCrash.haveCrash` hold, else `{ "crash": false }`. -/
def renderWindows (s : StoreState) : String :=
  if s.crashHappened && s.lastCrash.haveCrash then
    windowsCrashResponse s.lastCrash
  else "\x7b \"crash\": false \x7d\n"

/-! ## Platform Crash Configurators -/

/-- The observable state touched by `ConfigureWER`: whether the
`...\Windows Error Reporting\LocalDumps` key exists and the data of its
`DumpFolder` and `DumpType` values (`none` = value absent). -/
structure RegState where
  keyExists : Bool
  dumpFolder : Option String
  dumpType : Option Nat
deriving Repr, DecidableEq

/-- The API `RegCreateKeyExA`: creates the key if it is absent and opens it if it
already exists; either way it succeeds (privilege failures aside, which are
environmental and orthogonal to the state). -/
def regCreateKey (s : RegState) : RegState :=
  { s with keyExists := true }

/-- The function `ConfigureWER` (`FawkesCrashAgent-Windows.cpp` lines 92–117): create or
open the WER `LocalDumps` key, then `RegSetValueExA` `DumpFolder` to
`CRASH_SUBDIR` and `DumpType` to `2`, overwriting any prior data; returns
`true` on this path (the `false` returns arise only from OS API failures,
not from pre-existing values). -/
def configureWER (s : RegState) : RegState × Bool :=
  let s1 := regCreateKey s
  let s2 := { s1 with dumpFolder := some CRASH_SUBDIR }
  let s3 := { s2 with dumpType := some (2 : Nat) }
  (s3, true)

/-- A resource-limit value: `RLIM_INFINITY` or a finite byte count. -/
inductive RLim where
  | infinity
  | finite (n : Nat)
deriving Repr, DecidableEq

/-- The observable state touched by `ConfigureCorePattern`: the contents of
`/proc/sys/kernel/core_pattern` and the calling process's `RLIMIT_CORE`
soft and hard limits. -/
structure LinuxSysState where
  corePattern : String
  rlimCoreCur : RLim
  rlimCoreMax : RLim
deriving Repr, DecidableEq

/-- The function `ConfigureCorePattern` (`LinuxCrashAgent.cpp` lines 82–104): overwrite
`/proc/sys/kernel/core_pattern` with `CORE_PATTERN_VALUE` plus a newline
(an `ofstream` truncates the existing contents), then `setrlimit` both core
limits to `RLIM_INFINITY`.  `canWrite` models whether the `/proc` file opens
for writing (root), `canSetRlimit` whether `setrlimit` succeeds; on either
failure the function returns `false` after the state changes made so far. -/
def configureCorePattern (canWrite canSetRlimit : Bool) (s : LinuxSysState) :
    LinuxSysState × Bool :=
  if !canWrite then (s, false)
  else
    let s1 := { s with corePattern := CORE_PATTERN_VALUE ++ "\n" }
    if !canSetRlimit then (s1, false)
    else ({ s1 with rlimCoreCur := RLim.infinity, rlimCoreMax := RLim.infinity }, true)

/-! ## Operation-level traces (for the flag-monotonicity invariant) -/

/-- One step of the Windows agent touching (or reading) the store: a crash
delivered to the exception filter, or a query serviced by the responder
(which only reads the globals). -/
inductive WinOp where
  | crash (code pid : Nat) (exeOk : Bool) (modulePath : String)
      (createOk : Bool) (ts : String)
  | query

/-- Effect of one Windows-agent step on the store; `query` reads only. -/
def winApply (s : StoreState) (op : WinOp) : StoreState :=
  match op with
  | WinOp.crash code pid exeOk modulePath createOk ts =>
      winFilter code pid exeOk modulePath createOk ts s
  | WinOp.query => s

/-- A sequence of Windows-agent steps. -/
def winRun (s : StoreState) (ops : List WinOp) : StoreState :=
  ops.foldl winApply s

/-- One step of the Linux agent touching (or reading) the store: a watcher
poll cycle over an observed listing, or a query serviced by the responder. -/
inductive LinuxOp where
  | poll (dirOk : Bool) (entries : List DirEntry)
  | query

/-- Effect of one Linux-agent step; `query` reads only. -/
def linuxApply (s : PollState) (op : LinuxOp) : PollState :=
  match op with
  | LinuxOp.poll dirOk entries => pollCycle dirOk entries s
  | LinuxOp.query => s

/-- A sequence of Linux-agent steps. -/
def linuxRun (s : PollState) (ops : List LinuxOp) : PollState :=
  ops.foldl linuxApply s

/-! ## Spec-side candidate selection (for the refinement comparison) -/

/-- One step of the selection §4.3 Variant B step 2 of the spec describes:
keep the newer of the running candidate and the next entry, retaining the
earlier-encountered one on a timestamp tie. -/
def specPick (acc : Option DirEntry) (e : DirEntry) : Option DirEntry :=
  match acc with
  | none => some e
  | some b => if b.mtime < e.mtime then some e else some b

/-- Candidate selection as §4.3 Variant B steps 1–2 of the spec describe it:
keep the regular files whose name begins with `core.`, then pick the entry
with the greatest modification timestamp, ties broken in favour of the
first-encountered entry. -/
def specSelect (entries : List DirEntry) : Option DirEntry :=
  (entries.filter goodEntry).foldl specPick none

/-- Whether `needle` occurs as a contiguous run inside `hay`. -/
def containsRun (needle : List Char) : List Char → Bool
  | [] => needle.isEmpty
  | c :: t => needle.isPrefixOf (c :: t) || containsRun needle t

/-- Substring test used to state facts about rendered responses. -/
def containsStr (hay needle : String) : Bool :=
  containsRun needle.data hay.data

/-! ## Micro-step interleaving model of the Store

The detector's `set` (`MyUnhandledExceptionFilter` lines 137–145, and
identically `CrashWatcherLoop` lines 146–154) takes the mutex, stores the
atomic flag, writes the five record fields one at a time, and releases the
mutex.  The responder's `get` (`StartTCPServer` lines 286–306) reads the
flag outside the lock, then takes the mutex, copies the record while
building the response, and releases the mutex.  The model below interleaves
the individual statements of one `set` with one concurrent `get` under a
single mutual-exclusion lock, exactly in source order. -/

/-- The values one `set` call writes into the record (the captured exe path,
pid, exception code and artifact path). -/
structure SetArgs where
  exe : String
  pid : Nat
  code : Nat
  file : String
deriving Repr, DecidableEq

/-- The record as it stands after all five writes of a `set` with
arguments `a`. -/
def fullRec (a : SetArgs) : CrashInfo :=
  { haveCrash := true, exePath := a.exe, pid := a.pid,
    exceptionCode := a.code, crashFile := a.file }

/-- Interleaving state: program counters of the writer (`set`) and the
reader (`get`), the mutex (`none` free, `some true` held by the writer,
`some false` by the reader), the atomic flag, the shared record cell, the
reader's locally-read flag and the reader's copied snapshot. -/
structure ConcState where
  wpc : Nat
  rpc : Nat
  lock : Option Bool
  flag : Bool
  cell : CrashInfo
  flagRead : Bool
  snap : Option CrashInfo
deriving Repr, DecidableEq

/-- Both threads at their first statement, lock free, globals initial. -/
def initConc : ConcState :=
  { wpc := 0, rpc := 0, lock := none, flag := false,
    cell := initCrashInfo, flagRead := false, snap := none }

/-- One statement of the writer, in the source order of the `set` critical
section: acquire the mutex, store the flag, write `haveCrash`, `exePath`,
`pid`, `exceptionCode`, `crashFile`, release the mutex.  A thread blocked on
the mutex, or already finished, leaves the state unchanged. -/
def wstep (a : SetArgs) (s : ConcState) : ConcState :=
  if s.wpc = 0 then
    (if s.lock = none then { s with wpc := 1, lock := some true } else s)
  else if s.wpc = 1 then { s with wpc := 2, flag := true }
  else if s.wpc = 2 then { s with wpc := 3, cell := { s.cell with haveCrash := true } }
  else if s.wpc = 3 then { s with wpc := 4, cell := { s.cell with exePath := a.exe } }
  else if s.wpc = 4 then { s with wpc := 5, cell := { s.cell with pid := a.pid } }
  else if s.wpc = 5 then { s with wpc := 6, cell := { s.cell with exceptionCode := a.code } }
  else if s.wpc = 6 then { s with wpc := 7, cell := { s.cell with crashFile := a.file } }
  else if s.wpc = 7 then { s with wpc := 8, lock := none }
  else s

/-- One statement of the reader, in the source order of the responder:
read the atomic flag (outside the lock), acquire the mutex, copy the record
while building the response, release the mutex. -/
def rstep (s : ConcState) : ConcState :=
  if s.rpc = 0 then { s with rpc := 1, flagRead := s.flag }
  else if s.rpc = 1 then
    (if s.lock = none then { s with rpc := 2, lock := some false } else s)
  else if s.rpc = 2 then { s with rpc := 3, snap := some s.cell }
  else if s.rpc = 3 then { s with rpc := 4, lock := none }
  else s

/-- Run an interleaving: `true` schedules the writer, `false` the reader. -/
def concRun (a : SetArgs) (sched : List Bool) : ConcState :=
  sched.foldl (fun s c => if c then wstep a s else rstep s) initConc

/-- The contents of the shared cell as a function of the writer's program
counter: initial before the first field write, fully written after the
last. -/
def cellAt (a : SetArgs) (w : Nat) : CrashInfo :=
  if w ≤ 2 then initCrashInfo
  else if w = 3 then CrashInfo.mk true "" 0 0 ""
  else if w = 4 then CrashInfo.mk true a.exe 0 0 ""
  else if w = 5 then CrashInfo.mk true a.exe a.pid 0 ""
  else if w = 6 then CrashInfo.mk true a.exe a.pid a.code ""
  else fullRec a

/-- Inductive invariant of the interleaved system: the lock is held by the
writer exactly inside its critical section and by the reader exactly inside
its own; the cell is determined by the writer's program counter; and any
snapshot the reader has taken is either the initial record or the fully
written one. -/
structure ConcInv (a : SetArgs) (s : ConcState) : Prop where
  wpcLe : s.wpc ≤ 8
  rpcLe : s.rpc ≤ 4
  lockW : s.lock = some true ↔ (1 ≤ s.wpc ∧ s.wpc ≤ 7)
  lockR : s.lock = some false ↔ (2 ≤ s.rpc ∧ s.rpc ≤ 3)
  cellEq : s.cell = cellAt a s.wpc
  snapOk : s.snap = none ∨ s.snap = some initCrashInfo ∨ s.snap = some (fullRec a)
  snapSet : 3 ≤ s.rpc → s.snap ≠ none

lemma concInv_init (a : SetArgs) : ConcInv a initConc := by
  constructor <;> simp [initConc, cellAt]

set_option maxHeartbeats 2000000 in
lemma concInv_wstep (a : SetArgs) (s : ConcState) (h : ConcInv a s) :
    ConcInv a (wstep a s) := by
  obtain ⟨wpc, rpc, lock, flag, cell, flagRead, snap⟩ := s
  obtain ⟨h1, h2, h3, h4, h5, h6, h7⟩ := h
  dsimp only at h1 h2 h3 h4 h5 h6 h7
  interval_cases wpc <;> rcases lock with _ | b <;> (try rcases b) <;>
    refine ⟨?_, ?_, ?_, ?_, ?_, ?_, ?_⟩ <;>
    simp_all [wstep, cellAt, fullRec, initCrashInfo]

set_option maxHeartbeats 2000000 in
lemma concInv_rstep (s : ConcState) (a : SetArgs) (h : ConcInv a s) :
    ConcInv a (rstep s) := by
  obtain ⟨wpc, rpc, lock, flag, cell, flagRead, snap⟩ := s
  obtain ⟨h1, h2, h3, h4, h5, h6, h7⟩ := h
  dsimp only at h1 h2 h3 h4 h5 h6 h7
  have hw : wpc = 0 ∨ (1 ≤ wpc ∧ wpc ≤ 7) ∨ wpc = 8 := by omega
  interval_cases rpc <;> rcases lock with _ | b <;> (try rcases b) <;>
    refine ⟨?_, ?_, ?_, ?_, ?_, ?_, ?_⟩ <;>
    simp_all [rstep, cellAt, fullRec, initCrashInfo] <;>
    try omega
  all_goals
    rcases hw with hw | ⟨hw1, hw2⟩ | hw <;> subst_vars <;>
      simp_all [cellAt, fullRec, initCrashInfo] <;> omega

lemma concInv_run (a : SetArgs) (sched : List Bool) : ConcInv a (concRun a sched) := by
  suffices h : ∀ s, ConcInv a s →
      ConcInv a (sched.foldl (fun s c => if c then wstep a s else rstep s) s) by
    exact h initConc (concInv_init a)
  induction sched with
  | nil => intro s hs; exact hs
  | cons c cs ih =>
      intro s hs
      simp only [List.foldl_cons]
      rcases c with _ | _
      · exact ih _ (concInv_rstep s a hs)
      · exact ih _ (concInv_wstep a s hs)

/-! ## Helper lemmas -/

lemma winApply_flag (s : StoreState) (op : WinOp) (h : s.crashHappened = true) :
    (winApply s op).crashHappened = true := by
  cases op <;> simp [winApply, winFilter, h]

lemma winRun_flag (s : StoreState) (ops : List WinOp) (h : s.crashHappened = true) :
    (winRun s ops).crashHappened = true := by
  induction ops generalizing s with
  | nil => exact h
  | cons op tl ih =>
      simpa [winRun, List.foldl_cons] using ih (winApply s op) (winApply_flag s op h)

lemma pollCycle_store_cases (d : Bool) (es : List DirEntry) (p : PollState) :
    (pollCycle d es p).store = p.store ∨ (pollCycle d es p).store.crashHappened = true := by
  rcases d with _ | _
  · left; rfl
  · rcases hsel : codeSelect es with _ | e
    · left; simp [pollCycle, hsel]
    · by_cases heq : fullPath e ≠ p.lastCore
      · right; simp [pollCycle, hsel, heq]
      · left; simp [pollCycle, hsel, heq]

lemma pollCycle_flag (d : Bool) (es : List DirEntry) (p : PollState)
    (h : p.store.crashHappened = true) :
    (pollCycle d es p).store.crashHappened = true := by
  rcases pollCycle_store_cases d es p with hc | hc
  · rw [hc]; exact h
  · exact hc

lemma linuxApply_flag (p : PollState) (op : LinuxOp) (h : p.store.crashHappened = true) :
    (linuxApply p op).store.crashHappened = true := by
  cases op with
  | poll d es => exact pollCycle_flag d es p h
  | query => exact h

lemma linuxRun_flag (p : PollState) (ops : List LinuxOp) (h : p.store.crashHappened = true) :
    (linuxRun p ops).store.crashHappened = true := by
  induction ops generalizing p with
  | nil => exact h
  | cons op tl ih =>
      simpa [linuxRun, List.foldl_cons] using ih (linuxApply p op) (linuxApply_flag p op h)

/-- Any entry the directory scan selects passed its filter: it is a regular
file and its name begins with `core.`. -/
lemma selectFold_starts (entries : List DirEntry) :
    ∀ acc : Option DirEntry × Int,
      (∀ b, acc.1 = some b → b.regular = true ∧ startsWithCore b.name = true) →
      ∀ b, (entries.foldl selectStep acc).1 = some b →
        b.regular = true ∧ startsWithCore b.name = true := by
  induction entries with
  | nil => intro acc hacc b hb; exact hacc b hb
  | cons e tl ih =>
      intro acc hacc b hb
      refine ih (selectStep acc e) ?_ b (by simpa [List.foldl_cons] using hb)
      intro b' hb'
      by_cases hcond : (goodEntry e && decide (acc.2 < e.mtime)) = true
      · simp only [selectStep, hcond, if_true] at hb'
        obtain rfl : e = b' := by simpa using hb'
        simp only [goodEntry, Bool.and_eq_true] at hcond
        exact ⟨hcond.1.1, hcond.1.2⟩
      · simp only [selectStep, hcond, if_false, Bool.false_eq_true] at hb'
        exact hacc b' hb'

lemma codeSelect_starts (entries : List DirEntry) (e : DirEntry)
    (h : codeSelect entries = some e) :
    e.regular = true ∧ startsWithCore e.name = true := by
  exact selectFold_starts entries (none, fileTimeMin) (by simp) e h

/-- On a name that begins with `core.` whose suffix makes `stoi` throw,
`parsePID` returns the sentinel `-1`. -/
lemma parsePID_sentinel (name : String) (hpre : startsWithCore name = true)
    (hfail : cppStoi (name.drop 5) = none) : parsePID name = -1 := by
  simp [parsePID, hpre, hfail]

/-- The store contents installed by a poll cycle that detects a new crash. -/
lemma pollCycle_detect (entries : List DirEntry) (s : PollState) (e : DirEntry)
    (hsel : codeSelect entries = some e) (hne : fullPath e ≠ s.lastCore) :
    pollCycle true entries s =
      { lastCore := fullPath e,
        store :=
          { crashHappened := true,
            lastCrash :=
              { haveCrash := true, exePath := "unknown",
                pid := toULong (parsePID e.name), exceptionCode := 0xC0000005,
                crashFile := fullPath e } } } := by
  simp [pollCycle, hsel, hne]

/-- The scan fold agrees, on every listing, with the spec-side selection
applied after additionally discarding the entries whose timestamp is not
strictly above the `file_time_type::min()` sentinel: the running maximum
starts at the sentinel and only a strictly greater timestamp replaces it, so
a selected candidate always sits strictly above the sentinel. -/
lemma selectFold_rel (entries : List DirEntry) :
    ∀ acc : Option DirEntry × Int,
      (acc = (none, fileTimeMin) ∨
        ∃ b, acc = (some b, b.mtime) ∧ fileTimeMin < b.mtime) →
      (entries.foldl selectStep acc).1 =
        (entries.filter fun e => goodEntry e && decide (fileTimeMin < e.mtime)).foldl
          specPick acc.1 := by
  induction entries with
  | nil => intro acc _; simp
  | cons e tl ih =>
      intro acc hacc
      by_cases hg : goodEntry e = true
      · by_cases hmt : fileTimeMin < e.mtime
        · rcases hacc with rfl | ⟨b, rfl, hb⟩
          · have hstep : selectStep (none, fileTimeMin) e = (some e, e.mtime) := by
              simp [selectStep, hg, hmt]
            rw [List.foldl_cons, hstep, List.filter_cons, if_pos (by simp [hg, hmt]),
              List.foldl_cons]
            simpa [specPick] using ih (some e, e.mtime) (Or.inr ⟨e, rfl, hmt⟩)
          · by_cases hlt : b.mtime < e.mtime
            · have hstep : selectStep (some b, b.mtime) e = (some e, e.mtime) := by
                simp [selectStep, hg, hlt]
              rw [List.foldl_cons, hstep, List.filter_cons, if_pos (by simp [hg, hmt]),
                List.foldl_cons]
              simpa [specPick, hlt] using ih (some e, e.mtime) (Or.inr ⟨e, rfl, hmt⟩)
            · have hstep : selectStep (some b, b.mtime) e = (some b, b.mtime) := by
                simp [selectStep, hlt]
              rw [List.foldl_cons, hstep, List.filter_cons, if_pos (by simp [hg, hmt]),
                List.foldl_cons]
              simpa [specPick, hlt] using ih (some b, b.mtime) (Or.inr ⟨b, rfl, hb⟩)
        · have hstep : selectStep acc e = acc := by
            rcases hacc with rfl | ⟨b, rfl, hb⟩
            · simp [selectStep, hmt]
            · have hbe : ¬ b.mtime < e.mtime := by omega
              simp [selectStep, hbe]
          rw [List.foldl_cons, hstep, List.filter_cons, if_neg (by simp [hmt])]
          exact ih acc hacc
      · have hstep : selectStep acc e = acc := by
          simp [selectStep, hg]
        rw [List.foldl_cons, hstep, List.filter_cons, if_neg (by simp [hg])]
        exact ih acc hacc

/-! ## Claims -/

/-- C1: the spec requires the Variant B responder to render the exception
field as canonical lowercase hex (`"exception": "0xc0000005"` for a new core
artifact).  The code does not: the hex manipulation at
`LinuxCrashAgent.cpp` line 227 is broken (`std::to_string(std::hex)` and
`+ std::dec` are ill-formed C++, and `std::to_string(exceptionCode)` formats
in decimal), so after detecting `core.4242` the rendered response carries
`"exception": "0x3221225477"` and never the substring
`"exception": "0xc0000005"`. -/
theorem C1_linux_exception_rendered_decimal :
    renderLinux (pollCycle true [⟨"core.4242", true, 100⟩] initPollState).store =
      "\x7b \"crash\": true, \"pid\": 4242, \"exe\": \"unknown\", \"exception\": \"0x3221225477\", \"file\": \"/mnt/virtfs/fawkes/crashes/core.4242\" \x7d\n" ∧
    containsStr (renderLinux (pollCycle true [⟨"core.4242", true, 100⟩] initPollState).store)
      "\"exception\": \"0xc0000005\"" = false := by
  constructor
  · rfl
  · rfl

/-- C2: in every interleaving of one Store `set` (the detector writing the
flag and the five record fields under the mutex) with one concurrent `get`
(the responder copying the record under the mutex), a completed `get`
returns either the initial record or the fully written record of the `set`
— never a mixture. -/
theorem C2_store_snapshot_consistent (a : SetArgs) (sched : List Bool)
    (h : (concRun a sched).rpc = 4) :
    (concRun a sched).snap = some initCrashInfo ∨
      (concRun a sched).snap = some (fullRec a) := by
  have hinv := concInv_run a sched
  rcases hinv.snapOk with h0 | h1 | h2
  · exact absurd h0 (hinv.snapSet (by omega))
  · exact Or.inl h1
  · exact Or.inr h2

/-- Witness for C2: the all-reader interleaving completes the `get` and
returns the initial record. -/
theorem C2_store_snapshot_consistent_witness :
    (concRun ⟨"C:\\w.exe", 7, 5, "Z:\\f.json"⟩ [false, false, false, false]).rpc = 4 ∧
      ((concRun ⟨"C:\\w.exe", 7, 5, "Z:\\f.json"⟩ [false, false, false, false]).snap =
          some initCrashInfo ∨
        (concRun ⟨"C:\\w.exe", 7, 5, "Z:\\f.json"⟩ [false, false, false, false]).snap =
          some (fullRec ⟨"C:\\w.exe", 7, 5, "Z:\\f.json"⟩)) :=
  ⟨rfl, C2_store_snapshot_consistent ⟨"C:\\w.exe", 7, 5, "Z:\\f.json"⟩
    [false, false, false, false] rfl⟩

/-- C3: in both agents the crash-present flag `g_crashHappened` starts
`false`, every Store update writes it `true`, and over any sequence of
detector and responder steps it never reverts from `true` to `false`. -/
theorem C3_present_flag_monotone :
    initStore.crashHappened = false ∧
    initPollState.store.crashHappened = false ∧
    (∀ (code pid : Nat) (exeOk : Bool) (mp : String) (createOk : Bool)
        (ts : String) (s : StoreState),
        (winFilter code pid exeOk mp createOk ts s).crashHappened = true) ∧
    (∀ (d : Bool) (es : List DirEntry) (p : PollState),
        (pollCycle d es p).store = p.store ∨
          (pollCycle d es p).store.crashHappened = true) ∧
    (∀ (s : StoreState) (ops : List WinOp),
        s.crashHappened = true → (winRun s ops).crashHappened = true) ∧
    (∀ (p : PollState) (ops : List LinuxOp),
        p.store.crashHappened = true → (linuxRun p ops).store.crashHappened = true) := by
  refine ⟨rfl, rfl, ?_, ?_, ?_, ?_⟩
  · intro code pid exeOk mp createOk ts s; rfl
  · exact pollCycle_store_cases
  · exact winRun_flag
  · exact linuxRun_flag

/-- Witness for C3: a set flag survives a query followed by a crash event
(Windows) and a query followed by an empty poll (Linux). -/
theorem C3_present_flag_monotone_witness :
    (winRun ⟨true, initCrashInfo⟩
        [WinOp.query, WinOp.crash 5 7 true "C:\\a.exe" true "20230601_120000"]).crashHappened
      = true ∧
    (linuxRun ⟨"", ⟨true, initCrashInfo⟩⟩
        [LinuxOp.query, LinuxOp.poll true []]).store.crashHappened = true :=
  ⟨C3_present_flag_monotone.2.2.2.2.1 ⟨true, initCrashInfo⟩
      [WinOp.query, WinOp.crash 5 7 true "C:\\a.exe" true "20230601_120000"] rfl,
    C3_present_flag_monotone.2.2.2.2.2 ⟨"", ⟨true, initCrashInfo⟩⟩
      [LinuxOp.query, LinuxOp.poll true []] rfl⟩

/-- C4: while the crash flag has never been set (in particular in the
initial state of a freshly started agent), both agents answer every query
with exactly `{ "crash": false }` (newline-terminated), with no other
fields. -/
theorem C4_no_crash_default :
    initStore.crashHappened = false ∧
    ∀ s : StoreState, s.crashHappened = false →
      renderWindows s = "\x7b \"crash\": false \x7d\n" ∧
      renderLinux s = "\x7b \"crash\": false \x7d\n" := by
  refine ⟨rfl, ?_⟩
  intro s h
  constructor <;> simp [renderWindows, renderLinux, h]

/-- Witness for C4: the fresh store renders the no-crash response. -/
theorem C4_no_crash_default_witness :
    renderWindows initStore = "\x7b \"crash\": false \x7d\n" ∧
    renderLinux initStore = "\x7b \"crash\": false \x7d\n" :=
  C4_no_crash_default.2 initStore rfl

/-- C5: a poll cycle whose newest matching path equals the session-local
`lastCore` performs no update at all, and repeating a poll cycle over an
unchanged directory is idempotent, so each distinct artifact triggers at
most one Store update. -/
theorem C5_poller_dedup :
    (∀ (entries : List DirEntry) (s : PollState) (e : DirEntry),
        codeSelect entries = some e → fullPath e = s.lastCore →
        pollCycle true entries s = s) ∧
    (∀ (d : Bool) (entries : List DirEntry) (s : PollState),
        pollCycle d entries (pollCycle d entries s) = pollCycle d entries s) := by
  constructor
  · intro entries s e hsel heq
    simp [pollCycle, hsel, heq]
  · intro d entries s
    rcases d with _ | _
    · rfl
    · rcases hsel : codeSelect entries with _ | e
      · simp [pollCycle, hsel]
      · by_cases heq : fullPath e = s.lastCore
        · simp [pollCycle, hsel, heq]
        · rw [pollCycle_detect entries s e hsel heq]
          simp [pollCycle, hsel]

/-- Witness for C5: polling over a directory whose newest core file was
already recorded as `lastCore` leaves the state untouched. -/
theorem C5_poller_dedup_witness :
    pollCycle true [⟨"core.100", true, 5⟩]
        ⟨"/mnt/virtfs/fawkes/crashes/core.100",
          ⟨true, ⟨true, "unknown", 100, 0xC0000005, "/mnt/virtfs/fawkes/crashes/core.100"⟩⟩⟩ =
      ⟨"/mnt/virtfs/fawkes/crashes/core.100",
        ⟨true, ⟨true, "unknown", 100, 0xC0000005, "/mnt/virtfs/fawkes/crashes/core.100"⟩⟩⟩ :=
  C5_poller_dedup.1 [⟨"core.100", true, 5⟩]
    ⟨"/mnt/virtfs/fawkes/crashes/core.100",
      ⟨true, ⟨true, "unknown", 100, 0xC0000005, "/mnt/virtfs/fawkes/crashes/core.100"⟩⟩⟩
    ⟨"core.100", true, 5⟩ (by rfl) (by rfl)

/-- C6 counterexample: for a listing holding one regular `core.` file whose
modification timestamp equals `fs::file_time_type::min()`, the claim's
selection rule picks that entry (it is the matching entry of greatest
timestamp), but the code selects nothing, because its running maximum starts
at that same sentinel and only a strictly greater timestamp replaces it. -/
theorem C6_candidate_counterexample :
    codeSelect [⟨"core.1", true, fileTimeMin⟩] = none ∧
    specSelect [⟨"core.1", true, fileTimeMin⟩] = some ⟨"core.1", true, fileTimeMin⟩ :=
  ⟨rfl, rfl⟩

/-- C6 (amended): in every poll cycle, on every listing, the candidate is
chosen exactly as the claim states except that one further kind of entry is
ignored: besides the entries that are not regular files or whose name does
not begin with `core.`, the entries whose modification timestamp is not
strictly greater than `fs::file_time_type::min()` (for real file times,
exactly those equal to that minimum, the scan's initial running maximum,
which only a strictly greater timestamp replaces) are also ignored.  Among
the remaining entries the one with the strictly greatest modification
timestamp wins, ties resolved in favour of the first-encountered entry. -/
theorem C6_candidate_selection_amended (entries : List DirEntry) :
    codeSelect entries =
      specSelect (entries.filter fun e => decide (fileTimeMin < e.mtime)) := by
  have h := selectFold_rel entries (none, fileTimeMin) (Or.inl rfl)
  rw [codeSelect, h, specSelect, List.filter_filter]

/-- Witness for C6 on the mixed listing the counterexample motivates: the
sentinel-timestamp entry `core.1` is ignored, and the candidate is the
ordinary entry `core.2`. -/
theorem C6_candidate_selection_amended_witness :
    codeSelect [⟨"core.1", true, fileTimeMin⟩, ⟨"core.2", true, 5⟩] =
      specSelect ([⟨"core.1", true, fileTimeMin⟩, ⟨"core.2", true, 5⟩].filter
        fun e => decide (fileTimeMin < e.mtime)) ∧
    codeSelect [⟨"core.1", true, fileTimeMin⟩, ⟨"core.2", true, 5⟩] =
      some ⟨"core.2", true, 5⟩ :=
  ⟨C6_candidate_selection_amended [⟨"core.1", true, fileTimeMin⟩, ⟨"core.2", true, 5⟩],
    rfl⟩

/-- C7: when the suffix after `core.` does not parse (`std::stoi` throws),
`parsePID` returns the sentinel `-1` instead of propagating the exception,
and the watcher still installs the full crash record — sentinel pid,
`"unknown"` exe, placeholder exception code and the artifact path — rather
than dropping the crash. -/
theorem C7_parse_failure_keeps_crash :
    (∀ name : String, startsWithCore name = true → cppStoi (name.drop 5) = none →
        parsePID name = -1) ∧
    (∀ (entries : List DirEntry) (s : PollState) (e : DirEntry),
        codeSelect entries = some e → fullPath e ≠ s.lastCore →
        cppStoi (e.name.drop 5) = none →
        (pollCycle true entries s).store =
          { crashHappened := true,
            lastCrash :=
              { haveCrash := true, exePath := "unknown", pid := toULong (-1),
                exceptionCode := 0xC0000005, crashFile := fullPath e } }) := by
  constructor
  · exact parsePID_sentinel
  · intro entries s e hsel hne hfail
    rw [pollCycle_detect entries s e hsel hne,
      parsePID_sentinel e.name (codeSelect_starts entries e hsel).2 hfail]

/-- Witness for C7: the artifact `core.zzz` yields the sentinel pid and a
fully populated crash record. -/
theorem C7_parse_failure_keeps_crash_witness :
    parsePID "core.zzz" = -1 ∧
    (pollCycle true [⟨"core.zzz", true, 7⟩] initPollState).store =
      { crashHappened := true,
        lastCrash :=
          { haveCrash := true, exePath := "unknown", pid := toULong (-1),
            exceptionCode := 0xC0000005,
            crashFile := fullPath ⟨"core.zzz", true, 7⟩ } } :=
  ⟨C7_parse_failure_keeps_crash.1 "core.zzz" rfl rfl,
    C7_parse_failure_keeps_crash.2 [⟨"core.zzz", true, 7⟩] initPollState
      ⟨"core.zzz", true, 7⟩ rfl (by decide) rfl⟩

/-- C8: running either Platform Crash Configurator twice in succession
leaves the same configuration state as running it once (Variant A: the
`DumpFolder` and `DumpType` registry values; Variant B: the `core_pattern`
contents and the `RLIMIT_CORE` limits), and the second run reports success:
`RegCreateKeyExA` opens a pre-existing key and `RegSetValueExA` and the
`ofstream` write simply overwrite pre-existing values. -/
theorem C8_configurator_idempotent :
    (∀ s : RegState,
        configureWER (configureWER s).1 = configureWER s ∧
          (configureWER (configureWER s).1).2 = true) ∧
    (∀ s : LinuxSysState,
        configureCorePattern true true (configureCorePattern true true s).1 =
            configureCorePattern true true s ∧
          (configureCorePattern true true (configureCorePattern true true s).1).2 = true) :=
  ⟨fun _ => ⟨rfl, rfl⟩, fun _ => ⟨rfl, rfl⟩⟩

/-- C9: the sentinel `-1` returned by `parsePID` is converted to the 64-bit
`unsigned long` record field, so the Store holds
`pid = 18446744073709551615 = 2 ^ 64 - 1`, and the responder serialises that
decimal value in the `"pid"` field, not the literal `-1`. -/
theorem C9_sentinel_pid_as_unsigned :
    toULong (-1) = 18446744073709551615 ∧ 18446744073709551615 = 2 ^ 64 - 1 ∧
    (∀ (entries : List DirEntry) (s : PollState) (e : DirEntry),
        codeSelect entries = some e → fullPath e ≠ s.lastCore →
        cppStoi (e.name.drop 5) = none →
        (pollCycle true entries s).store.lastCrash.pid = 18446744073709551615 ∧
        renderLinux (pollCycle true entries s).store =
          "\x7b \"crash\": true, \"pid\": 18446744073709551615, \"exe\": \"unknown\", \"exception\": \"0x3221225477\", \"file\": \"" ++
            fullPath e ++ "\" \x7d\n") := by
  refine ⟨rfl, rfl, ?_⟩
  intro entries s e hsel hne hfail
  rw [pollCycle_detect entries s e hsel hne,
    parsePID_sentinel e.name (codeSelect_starts entries e hsel).2 hfail]
  refine ⟨rfl, ?_⟩
  show renderLinux _ = _
  simp only [renderLinux, linuxCrashResponse, Bool.and_self, if_true]
  congr 2

/-- Witness for C9: the unparseable artifact `core.zzz` is reported with the
huge unsigned pid in the rendered response. -/
theorem C9_sentinel_pid_as_unsigned_witness :
    (pollCycle true [⟨"core.zzz", true, 7⟩] initPollState).store.lastCrash.pid =
      18446744073709551615 ∧
    renderLinux (pollCycle true [⟨"core.zzz", true, 7⟩] initPollState).store =
      "\x7b \"crash\": true, \"pid\": 18446744073709551615, \"exe\": \"unknown\", \"exception\": \"0x3221225477\", \"file\": \"" ++
        fullPath ⟨"core.zzz", true, 7⟩ ++ "\" \x7d\n" :=
  C9_sentinel_pid_as_unsigned.2.2 [⟨"core.zzz", true, 7⟩] initPollState
    ⟨"core.zzz", true, 7⟩ rfl (by decide) rfl

/-- C10: when creating the crash artifact fails, `CreateCrashJSON` returns
the empty string, the exception filter nevertheless installs a record with
`present = true`, the captured pid, path and code, and an empty
`artifactPath`, and a subsequent query reports `crash: true` with
`"file": ""`. -/
theorem C10_create_fail_still_reports (code pid : Nat) (exeOk : Bool)
    (modulePath ts : String) (s : StoreState) :
    createCrashJSON pid ts false = "" ∧
    winFilter code pid exeOk modulePath false ts s =
      { crashHappened := true,
        lastCrash :=
          { haveCrash := true, exePath := if exeOk then modulePath else "unknown",
            pid := pid, exceptionCode := code, crashFile := "" } } ∧
    renderWindows (winFilter code pid exeOk modulePath false ts s) =
      "\x7b \"crash\": true, \"pid\": " ++ Nat.repr pid ++ ", \"exe\": \"" ++
        (if exeOk then modulePath else "unknown") ++ "\", \"exception\": \"0x" ++
        hexStr code ++ "\", \"file\": \"\" \x7d\n" := by
  refine ⟨rfl, rfl, ?_⟩
  simp [renderWindows, winFilter, windowsCrashResponse, createCrashJSON,
    String.append_assoc, String.append_empty]

end Fawkes
